import Mathlib

/-!
A shallow embedding of the inventory-reservation core of the
`appifyEcommerce` Django backend, together with theorems checking its
natural-language specification against the code.

Conventions of the embedding:
* Machine integers are modelled as `Int` (Python integers are unbounded);
  `PositiveIntegerField` columns are still `Int` here, because the Python
  code computes with plain ints in memory — non-negativity is exactly the
  invariant under scrutiny, so it must not be baked into the type.
* Monetary amounts (`DecimalField` with 2 decimal places) are modelled as
  integer cents, so `10.00` is `1000`; products of a quantity and a price
  are exact in both representations.
* A Django method that mutates `self` and `save()`s, or raises
  `ValidationError` before any mutation, becomes a function
  `α → Except VErr α`: the `.error` branch corresponds to the exception
  propagating with no field assigned (every `raise` in the source occurs
  before the first field assignment of its method).
* `transaction.atomic` blocks that abort become functions returning the
  original database state on the error path.
-/

namespace AppifyEcommerce

/-- Errors raised by the stock methods of `products/models.py` and the
validation logic of the cart/order views. -/
inductive VErr where
  /-- Raised as ValidationError: insufficient stock, carrying the available amount. -/
  | insufficientStock (available : Int)
  /-- Raised as ValidationError: cannot release more stock than reserved. -/
  | overRelease
  /-- Raised as ValidationError: cannot reduce more stock than reserved. -/
  | overReduce
  /-- Raised when an object lookup fails (DoesNotExist). -/
  | notFound
  deriving Repr, DecidableEq

/-- Embeds `products.models.Product`: the persisted fields the inventory core
reads or writes (`description` is never read by the core and is omitted).
`price` is in cents. -/
structure Product where
  id : Nat
  name : String
  price : Int
  stock_quantity : Int
  reserved_stock : Int
  deriving Repr, DecidableEq

/-- Embeds the `available_stock` property: `stock_quantity - reserved_stock`. -/
def Product.available_stock (p : Product) : Int :=
  p.stock_quantity - p.reserved_stock

/-- Embeds `Product.reserve_stock`: raise if `quantity > available_stock`, else
`reserved_stock += quantity` and save. -/
def Product.reserve_stock (p : Product) (quantity : Int) : Except VErr Product :=
  if quantity > p.available_stock then
    .error (.insufficientStock p.available_stock)
  else
    .ok { p with reserved_stock := p.reserved_stock + quantity }

/-- Embeds `Product.release_stock`: raise if `quantity > reserved_stock`, else
`reserved_stock -= quantity` and save. -/
def Product.release_stock (p : Product) (quantity : Int) : Except VErr Product :=
  if quantity > p.reserved_stock then
    .error .overRelease
  else
    .ok { p with reserved_stock := p.reserved_stock - quantity }

/-- Embeds `Product.reduce_stock`: raise if `quantity > reserved_stock`, else
`reserved_stock -= quantity` and `stock_quantity -= quantity` in one save. -/
def Product.reduce_stock (p : Product) (quantity : Int) : Except VErr Product :=
  if quantity > p.reserved_stock then
    .error .overReduce
  else
    .ok { p with reserved_stock := p.reserved_stock - quantity,
                 stock_quantity := p.stock_quantity - quantity }

/-- Embeds `Product.is_in_stock`: `available_stock >= quantity`. -/
def Product.is_in_stock (p : Product) (quantity : Int) : Bool :=
  decide (p.available_stock ≥ quantity)

/-- Modelled from the spec: `cart.models.Cart` is not under `src/` (only
its importers are).  Spec §3: identity and an owning user reference,
unique per user. -/
structure Cart where
  id : Nat
  userId : Nat
  deriving Repr, DecidableEq

/-- Modelled from the spec: `cart.models.CartItem` is not under `src/`.
Spec §3: identity, owning cart, referenced product, positive `quantity`. -/
structure CartItem where
  id : Nat
  cartId : Nat
  productId : Nat
  quantity : Int
  deriving Repr, DecidableEq

/-- Modelled from the spec: `orders.models.Order` is not under `src/`.
Spec §3: identity, owning user, server-computed `total_price` (cents),
`status` initially `pending`. -/
structure Order where
  id : Nat
  userId : Nat
  total_price : Int
  status : String
  deriving Repr, DecidableEq

/-- Modelled from the spec: `orders.models.OrderItem` is not under `src/`.
Spec §3: identity, owning order, referenced product, `quantity`, and
`price_at_purchase` (cents, snapshot of the product price). -/
structure OrderItem where
  id : Nat
  orderId : Nat
  productId : Nat
  quantity : Int
  price_at_purchase : Int
  deriving Repr, DecidableEq

/-- The transactional store: the rows of the five entities plus a
fresh-primary-key counter shared by all row creations. -/
structure DB where
  products : List Product
  carts : List Cart
  cartItems : List CartItem
  orders : List Order
  orderItems : List OrderItem
  nextId : Nat
  deriving Repr, DecidableEq

/-- Fetch of a product row by primary key
(`Product.objects...get(id=...)`, with or without `select_for_update`:
inside the embedding a fetch always reads the current persisted row). -/
def DB.findProduct (db : DB) (pid : Nat) : Option Product :=
  db.products.find? (fun p => p.id == pid)

/-- Persisting a mutated product row (`product.save(...)`): replaces the
row with the same primary key. -/
def DB.saveProduct (db : DB) (p : Product) : DB :=
  { db with products := db.products.map (fun q => if q.id == p.id then p else q) }

/-- Lookup of the user's cart (`Cart.objects.get(user=...)` /
the read half of `get_or_create`). -/
def DB.findCart (db : DB) (userId : Nat) : Option Cart :=
  db.carts.find? (fun c => c.userId == userId)

/-- Lookup used by `CartItem.objects.filter(cart=cart, product=...).first()`. -/
def DB.findCartItem (db : DB) (cartId pid : Nat) : Option CartItem :=
  db.cartItems.find? (fun ci => ci.cartId == cartId && ci.productId == pid)

/-- Lookup of a cart item by primary key (`self.get_object()`). -/
def DB.findCartItemById (db : DB) (itemId : Nat) : Option CartItem :=
  db.cartItems.find? (fun ci => ci.id == itemId)

/-- Embeds `CartItemViewSet.perform_create` (viewsets.py lines 173-219)
together with `get_cart` (`Cart.objects.get_or_create`).  The redundant
second `reserve_stock` call made by `CartItemSerializer.create` on the
new-item path operates on the stale pre-lock product object and persists
the same final value, so the net effect is the single reservation embedded
here; likewise the serializer's `validate` pre-check repeats the
incremental `is_in_stock` check embedded here.  An error return models the
`ValidationError` aborting the `transaction.atomic` block, leaving the
store unchanged. -/
def addItem (db : DB) (userId : Nat) (productId : Nat) (quantity : Int) :
    Except VErr DB :=
  match db.findProduct productId with
  | none => .error .notFound
  | some locked_product =>
    if !(locked_product.is_in_stock quantity) then
      .error (.insufficientStock locked_product.available_stock)
    else
      -- get_or_create cart for the user
      let cartAndDb : Cart × DB :=
        match db.findCart userId with
        | some c => (c, db)
        | none =>
          let c : Cart := { id := db.nextId, userId := userId }
          (c, { db with carts := db.carts ++ [c], nextId := db.nextId + 1 })
      let cart := cartAndDb.1
      let db1 := cartAndDb.2
      match db1.findCartItem cart.id productId with
      | some existing_item =>
        let new_quantity := existing_item.quantity + quantity
        if !(locked_product.is_in_stock new_quantity) then
          .error (.insufficientStock locked_product.available_stock)
        else
          match locked_product.reserve_stock quantity with
          | .error e => .error e
          | .ok p' =>
            let db2 := db1.saveProduct p'
            .ok { db2 with cartItems := db2.cartItems.map (fun ci =>
                    if ci.id == existing_item.id then
                      { ci with quantity := new_quantity }
                    else ci) }
      | none =>
        match locked_product.reserve_stock quantity with
        | .error e => .error e
        | .ok p' =>
          let db2 := db1.saveProduct p'
          .ok { db2 with
                cartItems := db2.cartItems ++
                  [{ id := db2.nextId, cartId := cart.id,
                     productId := productId, quantity := quantity }],
                nextId := db2.nextId + 1 }

/-- Embeds `CartItemViewSet.perform_update` (viewsets.py lines 221-255).
`requested` is `serializer.validated_data.get('quantity', old_quantity)`.
The redundant diff adjustment repeated by `CartItemSerializer.update` on
the stale product object persists the same final value, so the single
adjustment embedded here is the net effect. -/
def updateItem (db : DB) (itemId : Nat) (requested : Option Int) :
    Except VErr DB :=
  match db.findCartItemById itemId with
  | none => .error .notFound
  | some instanceItem =>
    match db.findProduct instanceItem.productId with
    | none => .error .notFound
    | some locked_product =>
      let old_quantity := instanceItem.quantity
      let new_quantity := requested.getD old_quantity
      let quantity_diff := new_quantity - old_quantity
      let adjusted : Except VErr DB :=
        if quantity_diff ≠ 0 then
          if quantity_diff > 0 then
            if !(locked_product.is_in_stock quantity_diff) then
              .error (.insufficientStock locked_product.available_stock)
            else
              match locked_product.reserve_stock quantity_diff with
              | .error e => .error e
              | .ok p' => .ok (db.saveProduct p')
          else
            match locked_product.release_stock |quantity_diff| with
            | .error e => .error e
            | .ok p' => .ok (db.saveProduct p')
        else .ok db
      match adjusted with
      | .error e => .error e
      | .ok dbA =>
        .ok { dbA with cartItems := dbA.cartItems.map (fun ci =>
                if ci.id == itemId then { ci with quantity := new_quantity }
                else ci) }

/-- Failure outcomes of the validation loop of `place_order`. -/
inductive CheckFailure where
  /-- A referenced product row does not exist. -/
  | productMissing
  /-- The 400 response: insufficient stock for a line, carrying the
  product id, its available stock and the requested quantity. -/
  | insufficient (product : Nat) (available_stock : Int)
      (requested_quantity : Int)
  deriving Repr, DecidableEq

/-- Embeds the first loop of `OrderViewSet.place_order` (viewsets.py
lines 351-372): each line re-fetches its product row from the store (no
write has happened yet, so every fetch sees the pre-transaction state),
checks `is_in_stock(quantity)` for that line alone, and accumulates
`price * quantity` into the running total.  Returns the total price or
the first failure. -/
def checkItems (db : DB) (items : List (Nat × Int)) : Except CheckFailure Int :=
  match items with
  | [] => .ok 0
  | (pid, quantity) :: rest =>
    match db.findProduct pid with
    | none => .error .productMissing
    | some locked_product =>
      if !(locked_product.is_in_stock quantity) then
        .error (.insufficient locked_product.id
          locked_product.available_stock quantity)
      else
        match checkItems db rest with
        | .error f => .error f
        | .ok t => .ok (locked_product.price * quantity + t)

/-- Embeds the second loop of `OrderViewSet.place_order` (viewsets.py
lines 376-388): per line, create an `OrderItem` with
`price_at_purchase = locked_product.price` and persist
`stock_quantity := stock_quantity - quantity` directly (no
`reserve_stock`/`reduce_stock`).  The source indexes `locked_products` by
product id, so duplicate lines for one product mutate the same object;
the embedding reads the current persisted row, which agrees with that
shared-object semantics because every decrement is saved. -/
def commitItems (db : DB) (order : Order) (items : List (Nat × Int)) : DB :=
  match items with
  | [] => db
  | (pid, quantity) :: rest =>
    match db.findProduct pid with
    | none => commitItems db order rest
    | some locked_product =>
      let db1 := { db with
        orderItems := db.orderItems ++
          [({ id := db.nextId, orderId := order.id, productId := pid,
              quantity := quantity,
              price_at_purchase := locked_product.price } : OrderItem)],
        nextId := db.nextId + 1 }
      let db2 := db1.saveProduct
        { locked_product with
            stock_quantity := locked_product.stock_quantity - quantity }
      commitItems db2 order rest

/-- Outcome of `OrderViewSet.place_order`. -/
inductive PlaceOrderResult where
  /-- The 400 response when the items list is empty. -/
  | noItems
  /-- A referenced product row does not exist. -/
  | productMissing
  /-- The 400 insufficient-stock response with product id, available
  stock and requested quantity. -/
  | insufficientStock (product : Nat) (available_stock : Int)
      (requested_quantity : Int)
  /-- The 201 response carrying the created order. -/
  | created (order : Order)
  deriving Repr, DecidableEq

/-- Converts a validation-loop failure into the view's response. -/
def CheckFailure.toResult : CheckFailure → PlaceOrderResult
  | .productMissing => .productMissing
  | .insufficient p a q => .insufficientStock p a q

/-- Embeds `OrderViewSet.place_order` (viewsets.py lines 332-390): empty
items are rejected; otherwise the validation loop runs, and an early
`return Response(...)` inside `transaction.atomic` leaves the store
untouched (no write precedes it); on success the order row is created
(`status='pending'`, backend-computed total) and the commit loop runs. -/
def place_order (db : DB) (userId : Nat) (items : List (Nat × Int)) :
    PlaceOrderResult × DB :=
  if items.isEmpty then (.noItems, db)
  else
    match checkItems db items with
    | .error f => (f.toResult, db)
    | .ok total_price =>
      let order : Order := { id := db.nextId, userId := userId,
                             total_price := total_price, status := "pending" }
      let db1 := { db with orders := db.orders ++ [order],
                           nextId := db.nextId + 1 }
      (.created order, commitItems db1 order items)

/-- Embeds the total-price loop of `cart.views.checkout` (views.py lines
114-117): sum of `item.quantity * item.product.price` over the cart
items, with a missing product row surfacing as the generic 500 path. -/
def totalPrice (db : DB) (items : List CartItem) : Option Int :=
  match items with
  | [] => some 0
  | item :: rest =>
    match db.findProduct item.productId with
    | none => none
    | some p =>
      match totalPrice db rest with
      | none => none
      | some t => some (item.quantity * p.price + t)

/-- Embeds the order-item/stock loop of `cart.views.checkout` (views.py
lines 127-140): per cart item, lock and fetch the product row, create an
`OrderItem` with `price_at_purchase` equal to the product's price, then
call `reduce_stock(quantity)`; a `ValidationError` from `reduce_stock`
escapes the atomic block. -/
def reduceAll (db : DB) (order : Order) (items : List CartItem) :
    Except VErr DB :=
  match items with
  | [] => .ok db
  | cart_item :: rest =>
    match db.findProduct cart_item.productId with
    | none => .error .notFound
    | some product =>
      let db1 := { db with
        orderItems := db.orderItems ++
          [({ id := db.nextId, orderId := order.id,
              productId := cart_item.productId,
              quantity := cart_item.quantity,
              price_at_purchase := product.price } : OrderItem)],
        nextId := db.nextId + 1 }
      match product.reduce_stock cart_item.quantity with
      | .error e => .error e
      | .ok p' => reduceAll (db1.saveProduct p') order rest

/-- Outcome of `cart.views.checkout`. -/
inductive CheckoutResult where
  /-- The 400 response when the user has no cart row. -/
  | noCart
  /-- The 400 response when the cart has no items. -/
  | emptyCart
  /-- The 500 response when an exception escapes the atomic block
  (the transaction rolls back). -/
  | serverError
  /-- The 201 response: the created order, the computed total price, and
  the `items_count` value of the payload. -/
  | success (order : Order) (total_price : Int) (items_count : Nat)
  deriving Repr, DecidableEq

/-- Embeds `cart.views.checkout` (views.py lines 92-163): missing cart and
empty cart return 400 with no change; otherwise the total is computed,
the order row created, the order-item/stock loop run, the cart items
deleted, and the success payload built — its `items_count` is
`cart_items.count()`, a fresh query evaluated after the deletion.  Any
exception rolls the transaction back (original store, 500). -/
def checkout (db : DB) (userId : Nat) : CheckoutResult × DB :=
  match db.findCart userId with
  | none => (.noCart, db)
  | some cart =>
    let cart_items := db.cartItems.filter (fun ci => ci.cartId == cart.id)
    if cart_items.isEmpty then (.emptyCart, db)
    else
      match totalPrice db cart_items with
      | none => (.serverError, db)
      | some total_price =>
        let order : Order := { id := db.nextId, userId := userId,
                               total_price := total_price, status := "pending" }
        let db1 := { db with orders := db.orders ++ [order],
                             nextId := db.nextId + 1 }
        match reduceAll db1 order cart_items with
        | .error _ => (.serverError, db)
        | .ok db2 =>
          let db3 := { db2 with cartItems :=
            db2.cartItems.filter (fun ci => !(ci.cartId == cart.id)) }
          (.success order total_price
            ((db3.cartItems.filter (fun ci => ci.cartId == cart.id)).length),
           db3)

/-- Shape of the product sub-object of a cart-summary item. -/
structure SummaryProduct where
  id : Nat
  name : String
  price : Int
  available_stock : Int
  deriving Repr, DecidableEq

/-- Shape of one entry of `items_data` in `cart.views.cart_summary`. -/
structure SummaryItem where
  id : Nat
  product : SummaryProduct
  quantity : Int
  item_total : Int
  in_stock : Bool
  deriving Repr, DecidableEq

/-- Shape of the `data` object of the `cart_summary` response. -/
structure CartSummary where
  items : List SummaryItem
  total_price : Int
  items_count : Nat
  can_checkout : Bool
  deriving Repr, DecidableEq

/-- Embeds the `items_data` loop of `cart.views.cart_summary` (views.py
lines 276-291); `none` is the 500 path (missing product row). -/
def summaryItems (db : DB) (items : List CartItem) :
    Option (List SummaryItem) :=
  match items with
  | [] => some []
  | item :: rest =>
    match db.findProduct item.productId with
    | none => none
    | some product =>
      match summaryItems db rest with
      | none => none
      | some tail =>
        some ({ id := item.id,
                product := { id := product.id, name := product.name,
                             price := product.price,
                             available_stock := product.available_stock },
                quantity := item.quantity,
                item_total := item.quantity * product.price,
                in_stock := product.is_in_stock item.quantity } :: tail)

/-- Embeds `cart.views.cart_summary` (views.py lines 251-312): a missing
cart row answers the fixed all-zero payload with `can_checkout = false`;
an existing cart answers the aggregation over its items, where
`can_checkout = all(item['in_stock'] for item in items_data)` — Python's
`all` of an empty iterable is `True`.  `none` is the 500 path. -/
def cart_summary (db : DB) (userId : Nat) : Option CartSummary :=
  match db.findCart userId with
  | none =>
    some { items := [], total_price := 0, items_count := 0,
           can_checkout := false }
  | some cart =>
    let cart_items := db.cartItems.filter (fun ci => ci.cartId == cart.id)
    match summaryItems db cart_items with
    | none => none
    | some items_data =>
      some { items := items_data,
             total_price := (items_data.map (fun it => it.item_total)).sum,
             items_count := items_data.length,
             can_checkout := items_data.all (fun it => it.in_stock) }

/-! Concrete stores used by the scenario theorems and witnesses. -/

/-- Scenario D store (spec §8): one product with 4 in stock, none
reserved. -/
def dbScenD : DB :=
  { products := [{ id := 1, name := "A", price := 100,
                   stock_quantity := 4, reserved_stock := 0 }],
    carts := [], cartItems := [], orders := [], orderItems := [],
    nextId := 50 }

/-- Initial product of the ledger-invariant scenario: 4 in stock, 1
reserved. -/
def pInv : Product :=
  { id := 7, name := "C", price := 200, stock_quantity := 4,
    reserved_stock := 1 }

/-- Product state after the duplicate-line order of the ledger-invariant
scenario: 0 in stock, still 1 reserved. -/
def pInvAfter : Product :=
  { id := 7, name := "C", price := 200, stock_quantity := 0,
    reserved_stock := 1 }

/-- Store of the ledger-invariant scenario. -/
def dbInv : DB :=
  { products := [pInv], carts := [], cartItems := [], orders := [],
    orderItems := [], nextId := 60 }

/-- Store for the add-to-existing-cart-item scenarios: 10 in stock, 3
reserved, backed by one cart item of quantity 3. -/
def dbMerge : DB :=
  { products := [{ id := 1, name := "B", price := 500,
                   stock_quantity := 10, reserved_stock := 3 }],
    carts := [{ id := 2, userId := 4 }],
    cartItems := [{ id := 3, cartId := 2, productId := 1, quantity := 3 }],
    orders := [], orderItems := [], nextId := 40 }

/-- The product row of `dbMerge`. -/
def pMerge : Product :=
  { id := 1, name := "B", price := 500, stock_quantity := 10,
    reserved_stock := 3 }

/-- The cart item row of `dbMerge`. -/
def itMerge : CartItem :=
  { id := 3, cartId := 2, productId := 1, quantity := 3 }

/-- Out-of-stock product used by the place-order abort witness. -/
def pOut : Product :=
  { id := 1, name := "D", price := 300, stock_quantity := 0,
    reserved_stock := 0 }

/-- Store with a single out-of-stock product. -/
def dbOut : DB :=
  { products := [pOut], carts := [], cartItems := [], orders := [],
    orderItems := [], nextId := 5 }

/-- Scenario C store (spec §8): one cart item of quantity 2 on a product
priced 10.00 with 10 in stock and 2 reserved. -/
def dbScenC : DB :=
  { products := [{ id := 1, name := "P", price := 1000,
                   stock_quantity := 10, reserved_stock := 2 }],
    carts := [{ id := 10, userId := 5 }],
    cartItems := [{ id := 20, cartId := 10, productId := 1, quantity := 2 }],
    orders := [], orderItems := [], nextId := 30 }

/-- Store with a cart row for user 7 holding no items. -/
def dbEmptyCart : DB :=
  { products := [], carts := [{ id := 6, userId := 7 }], cartItems := [],
    orders := [], orderItems := [], nextId := 8 }

/-- Store for the quantity-decrease witness: reserved stock 5 backed by
two cart items of quantities 3 and 2. -/
def dbDecrease : DB :=
  { products := [{ id := 1, name := "E", price := 700,
                   stock_quantity := 10, reserved_stock := 5 }],
    carts := [{ id := 2, userId := 4 }, { id := 9, userId := 11 }],
    cartItems := [{ id := 3, cartId := 2, productId := 1, quantity := 3 },
                  { id := 4, cartId := 9, productId := 1, quantity := 2 }],
    orders := [], orderItems := [], nextId := 70 }

end AppifyEcommerce

namespace AppifyEcommerce

/-- Claim C6: `reserveStock(product, qty)` fails with `InsufficientStock`
(reporting the available stock) if and only if `qty > available_stock`; on
success it increases `reserved_stock` by exactly `qty` and leaves
`stock_quantity` unchanged.  (The failure branch of the source raises
before any field is assigned, so a failure changes nothing.) -/
theorem C6_reserve_stock_spec (p : Product) (q : Int) :
    (p.reserve_stock q = .error (.insufficientStock p.available_stock) ↔
      q > p.available_stock)
    ∧ (∀ p', p.reserve_stock q = .ok p' →
        p'.reserved_stock = p.reserved_stock + q
        ∧ p'.stock_quantity = p.stock_quantity
        ∧ p'.price = p.price ∧ p'.id = p.id) := by
  constructor
  · constructor
    · intro h
      by_contra hlt
      simp [Product.reserve_stock, hlt] at h
    · intro h
      simp [Product.reserve_stock, h]
  · intro p' h
    by_cases hgt : q > p.available_stock
    · simp [Product.reserve_stock, hgt] at h
    · simp [Product.reserve_stock, hgt] at h
      simp [← h]

/-- Witness for C6 at a concrete product: reserving 3 of a product with
10 total and 2 reserved succeeds and moves `reserved_stock` to 5. -/
theorem C6_reserve_stock_spec_witness :
    ((Product.mk 1 "Laptop" 1000 10 2).reserve_stock 3 =
        .ok (Product.mk 1 "Laptop" 1000 10 5))
    ∧ (Product.mk 1 "Laptop" 1000 10 5).reserved_stock =
        (Product.mk 1 "Laptop" 1000 10 2).reserved_stock + 3 := by
  refine ⟨by rfl, ?_⟩
  exact ((C6_reserve_stock_spec (Product.mk 1 "Laptop" 1000 10 2) 3).2
    (Product.mk 1 "Laptop" 1000 10 5) (by rfl)).1

/-- Claim C7: `reduceStock(product, qty)` fails with `OverReduce` if and
only if `qty > reserved_stock`; on success it decrements both
`reserved_stock` and `stock_quantity` by `qty` in the same step, so
`available_stock` is unchanged.  (The failure branch of the source raises
before any field is assigned, so a failure changes nothing.) -/
theorem C7_reduce_stock_spec (p : Product) (q : Int) :
    (p.reduce_stock q = .error .overReduce ↔ q > p.reserved_stock)
    ∧ (∀ p', p.reduce_stock q = .ok p' →
        p'.reserved_stock = p.reserved_stock - q
        ∧ p'.stock_quantity = p.stock_quantity - q
        ∧ p'.available_stock = p.available_stock
        ∧ p'.price = p.price ∧ p'.id = p.id) := by
  constructor
  · constructor
    · intro h
      by_contra hlt
      simp [Product.reduce_stock, hlt] at h
    · intro h
      simp [Product.reduce_stock, h]
  · intro p' h
    by_cases hgt : q > p.reserved_stock
    · simp [Product.reduce_stock, hgt] at h
    · simp [Product.reduce_stock, hgt] at h
      simp [← h, Product.available_stock]

/-- Witness for C7 at a concrete product: reducing 2 of a product with
10 total and 2 reserved succeeds, ending at 8 total and 0 reserved, with
`available_stock` unchanged. -/
theorem C7_reduce_stock_spec_witness :
    ((Product.mk 1 "Laptop" 1000 10 2).reduce_stock 2 =
        .ok (Product.mk 1 "Laptop" 1000 8 0))
    ∧ (Product.mk 1 "Laptop" 1000 8 0).available_stock =
        (Product.mk 1 "Laptop" 1000 10 2).available_stock := by
  refine ⟨by rfl, ?_⟩
  exact (((C7_reduce_stock_spec (Product.mk 1 "Laptop" 1000 10 2) 2).2
    (Product.mk 1 "Laptop" 1000 8 0) (by rfl)).2).2.1

/-- Claim C1 (code bug): on Scenario D — `placeOrder([(A,2),(A,3)])`
against product A with `stock_quantity = 4`, `reserved_stock = 0` — the
claim requires the cumulative check to fail with `InsufficientStock`
(available 4, requested 5) and no stock change.  The code instead passes
both per-line checks on re-fetched rows, creates the order (total
5 × 100), and decrements the shared locked row twice, persisting
`stock_quantity = -1`: an oversell. -/
theorem C1_place_order_duplicate_lines_oversell :
    (place_order dbScenD 9 [(1, 2), (1, 3)]).1 =
      .created { id := 50, userId := 9, total_price := 500,
                 status := "pending" }
    ∧ (place_order dbScenD 9 [(1, 2), (1, 3)]).2.findProduct 1 =
      some { id := 1, name := "A", price := 100, stock_quantity := -1,
             reserved_stock := 0 } :=
  ⟨rfl, rfl⟩

/-- Claim C3 (code bug): starting from a product satisfying
`0 ≤ reserved_stock ≤ stock_quantity` (here 0 ≤ 1 ≤ 4), a single
`place_order` call with duplicate lines for that product drives the state
to `stock_quantity = 0 < reserved_stock = 1`, violating the invariant the
claim asserts for every operation sequence. -/
theorem C3_place_order_breaks_stock_invariant :
    dbInv.products = [pInv]
    ∧ (0 ≤ pInv.reserved_stock ∧ pInv.reserved_stock ≤ pInv.stock_quantity)
    ∧ (place_order dbInv 2 [(7, 2), (7, 2)]).2.findProduct 7 = some pInvAfter
    ∧ ¬ (0 ≤ pInvAfter.reserved_stock
          ∧ pInvAfter.reserved_stock ≤ pInvAfter.stock_quantity) := by
  refine ⟨rfl, by decide, rfl, ?_⟩
  decide

/-- Claim C5: on Scenario C — a cart holding one item of quantity 2 of a
product priced 10.00 (1000 cents) with 10 in stock and 2 reserved —
`checkout` answers 201 with an order of total 20.00 (2000 cents), status
`pending`, one order item of quantity 2 at `price_at_purchase` 10.00,
leaves the product at 8 in stock with 0 reserved, and empties the cart. -/
theorem C5_checkout_scenario :
    checkout dbScenC 5 =
      (.success { id := 30, userId := 5, total_price := 2000,
                  status := "pending" } 2000 0,
       { products := [{ id := 1, name := "P", price := 1000,
                        stock_quantity := 8, reserved_stock := 0 }],
         carts := [{ id := 10, userId := 5 }],
         cartItems := [],
         orders := [{ id := 30, userId := 5, total_price := 2000,
                      status := "pending" }],
         orderItems := [{ id := 31, orderId := 30, productId := 1,
                          quantity := 2, price_at_purchase := 1000 }],
         nextId := 32 }) :=
  rfl

/-- Counterexample to claim C2 as stated: in `dbMerge` the cart already
holds 3 of the product (10 in stock, 3 reserved, so available 7); adding
5 more passes the incremental check (5 ≤ 7) that the claim says governs
the call, yet the code rejects it because the merged total fails
(3 + 5 = 8 > 7): the view also validates `is_in_stock(oldQty + qty)`. -/
theorem C2_counterexample_merged_total_checked :
    dbMerge.findCartItem 2 1 = some itMerge
    ∧ itMerge.quantity = 3
    ∧ (dbMerge.findProduct 1).map Product.available_stock = some 7
    ∧ addItem dbMerge 4 1 5 = .error (.insufficientStock 7) :=
  ⟨rfl, rfl, rfl, rfl⟩

/-- Counterexample to claim C8 as stated: for user 7, whose cart row
exists but holds no items, `cart_summary` answers `can_checkout = true`
(Python's `all` of an empty list), not `false` as the claim requires for
a cart that contains no items. -/
theorem C8_counterexample_existing_empty_cart :
    dbEmptyCart.findCart 7 = some { id := 6, userId := 7 }
    ∧ cart_summary dbEmptyCart 7 =
      some { items := [], total_price := 0, items_count := 0,
             can_checkout := true } :=
  ⟨rfl, rfl⟩

/-- Filtering for a cart id right after filtering it away yields nothing:
the re-counted query of the checkout payload is empty. -/
theorem filter_cartId_after_clear (cid : Nat) (l : List CartItem) :
    (l.filter (fun ci => !(ci.cartId == cid))).filter
      (fun ci => ci.cartId == cid) = [] := by
  induction l with
  | nil => rfl
  | cons a l ih =>
    by_cases hb : a.cartId == cid
    · simp [List.filter_cons, hb, ih]
    · simp [List.filter_cons, hb, ih]

/-- Claim C10: every successful `checkout` reports `items_count = 0` in
its payload, whatever the cart held, because `cart_items.count()` is
re-evaluated after the cart items were deleted in the same transaction. -/
theorem C10_checkout_items_count_zero (db : DB) (u : Nat)
    (o : Order) (t : Int) (n : Nat) (db' : DB)
    (h : checkout db u = (.success o t n, db')) : n = 0 := by
  unfold checkout at h
  split at h
  · simp at h
  · dsimp only at h
    split at h
    · simp at h
    · split at h
      · simp at h
      · split at h
        · simp at h
        · simp only [Prod.mk.injEq, CheckoutResult.success.injEq] at h
          rw [← h.1.2.2]
          simp [filter_cartId_after_clear]

/-- Witness for C10: the successful Scenario C checkout reports
`items_count = 0`. -/
theorem C10_checkout_items_count_zero_witness :
    checkout dbScenC 5 =
      (.success { id := 30, userId := 5, total_price := 2000,
                  status := "pending" } 2000 0,
       { products := [{ id := 1, name := "P", price := 1000,
                        stock_quantity := 8, reserved_stock := 0 }],
         carts := [{ id := 10, userId := 5 }],
         cartItems := [],
         orders := [{ id := 30, userId := 5, total_price := 2000,
                      status := "pending" }],
         orderItems := [{ id := 31, orderId := 30, productId := 1,
                          quantity := 2, price_at_purchase := 1000 }],
         nextId := 32 })
    ∧ (0 : Nat) = 0 :=
  ⟨rfl, C10_checkout_items_count_zero dbScenC 5
    { id := 30, userId := 5, total_price := 2000, status := "pending" }
    2000 0
    { products := [{ id := 1, name := "P", price := 1000,
                     stock_quantity := 8, reserved_stock := 0 }],
      carts := [{ id := 10, userId := 5 }],
      cartItems := [],
      orders := [{ id := 30, userId := 5, total_price := 2000,
                   status := "pending" }],
      orderItems := [{ id := 31, orderId := 30, productId := 1,
                       quantity := 2, price_at_purchase := 1000 }],
      nextId := 32 }
    rfl⟩

/-- If any line of a place-order request references an existing product
whose stock check fails, the validation loop of `place_order` returns an
error (the loop may stop earlier on another line, but it cannot reach
`.ok`). -/
theorem checkItems_error_of_failing_line (db : DB)
    (items : List (Nat × Int)) (pid : Nat) (q : Int) (p : Product)
    (hmem : (pid, q) ∈ items) (hp : db.findProduct pid = some p)
    (hfail : p.is_in_stock q = false) :
    ∃ f, checkItems db items = .error f := by
  induction items with
  | nil => cases hmem
  | cons a rest ih =>
    obtain ⟨pa, qa⟩ := a
    rcases List.mem_cons.mp hmem with heq | hmem'
    · obtain ⟨h1, h2⟩ := Prod.mk.injEq .. ▸ heq
      subst h1; subst h2
      exact ⟨.insufficient p.id p.available_stock q,
        by simp [checkItems, hp, hfail]⟩
    · cases hfp : db.findProduct pa with
      | none => exact ⟨.productMissing, by simp [checkItems, hfp]⟩
      | some lp =>
        by_cases hin : lp.is_in_stock qa
        · obtain ⟨f, hf⟩ := ih hmem'
          exact ⟨f, by simp [checkItems, hfp, hin, hf]⟩
        · exact ⟨.insufficient lp.id lp.available_stock qa,
            by simp [checkItems, hfp, Bool.eq_false_iff.mpr hin]⟩

/-- A validation failure never converts into the created response. -/
theorem CheckFailure.toResult_ne_created (f : CheckFailure) (o : Order) :
    f.toResult ≠ .created o := by
  cases f <;> simp [CheckFailure.toResult]

/-- Claim C4: when some line of a `place_order` request fails the stock
validation (an existing product whose available stock does not cover the
requested quantity), the whole call aborts: the store afterwards is
exactly the store before — no order row, no order-item row, no stock
change — and the response is not a created order. -/
theorem C4_place_order_aborts_on_failed_line (db : DB) (u : Nat)
    (items : List (Nat × Int)) (pid : Nat) (q : Int) (p : Product)
    (hmem : (pid, q) ∈ items) (hp : db.findProduct pid = some p)
    (hfail : p.is_in_stock q = false) :
    (place_order db u items).2 = db
    ∧ ∀ o, (place_order db u items).1 ≠ .created o := by
  obtain ⟨f, hf⟩ := checkItems_error_of_failing_line db items pid q p
    hmem hp hfail
  have hne : items.isEmpty = false := by
    cases items
    · cases hmem
    · rfl
  refine ⟨?_, ?_⟩
  · simp [place_order, hne, hf]
  · intro o
    simp [place_order, hne, hf]
    exact CheckFailure.toResult_ne_created f o

/-- Witness for C4: a one-line order for a product with zero available
stock leaves the store untouched and yields no created order. -/
theorem C4_place_order_aborts_on_failed_line_witness :
    ((1, (1 : Int)) ∈ [((1 : Nat), (1 : Int))]
      ∧ dbOut.findProduct 1 = some pOut
      ∧ pOut.is_in_stock 1 = false)
    ∧ ((place_order dbOut 3 [(1, 1)]).2 = dbOut
      ∧ ∀ o, (place_order dbOut 3 [(1, 1)]).1 ≠ .created o) :=
  ⟨⟨List.mem_singleton.mpr rfl, rfl, rfl⟩,
   C4_place_order_aborts_on_failed_line dbOut 3 [(1, 1)] 1 1 pOut
     (List.mem_singleton.mpr rfl) rfl rfl⟩

/-- Claim C9: under the accounting invariant — the live cart-item
quantities of a product sum to its `reserved_stock`, all quantities being
non-negative — an `updateItem` to a smaller positive quantity always
succeeds: the released amount `oldQty - newQty` is at most
`reserved_stock`, so the `OverRelease` branch of `release_stock` is
unreachable on this path. -/
theorem C9_update_decrease_release_succeeds (db : DB) (itemId : Nat)
    (newQty : Int) (it : CartItem) (p : Product)
    (hit : db.findCartItemById itemId = some it)
    (hp : db.findProduct it.productId = some p)
    (hsum : ((db.cartItems.filter
        (fun ci => ci.productId == it.productId)).map
        (fun ci => ci.quantity)).sum = p.reserved_stock)
    (hpos : ∀ ci ∈ db.cartItems, 0 ≤ ci.quantity)
    (h0 : 0 < newQty) (hlt : newQty < it.quantity) :
    ∃ db', updateItem db itemId (some newQty) = .ok db' := by
  have hmem : it ∈ db.cartItems := List.mem_of_find?_eq_some hit
  have hmemf : it ∈ db.cartItems.filter
      (fun ci => ci.productId == it.productId) := by
    simp [List.mem_filter, hmem]
  have hqmem : it.quantity ∈
      (db.cartItems.filter (fun ci => ci.productId == it.productId)).map
        (fun ci => ci.quantity) := List.mem_map_of_mem _ hmemf
  have hle : it.quantity ≤ p.reserved_stock := by
    rw [← hsum]
    refine List.single_le_sum ?_ _ hqmem
    intro x hx
    obtain ⟨ci, hci, hx'⟩ := List.mem_map.mp hx
    exact hx' ▸ hpos ci (List.mem_of_mem_filter hci)
  have hd0 : newQty - it.quantity ≠ 0 := by omega
  have hdneg : ¬ (newQty - it.quantity > 0) := by omega
  have habs : |newQty - it.quantity| = it.quantity - newQty := by
    rw [abs_of_neg (by omega : newQty - it.quantity < 0)]; ring
  have hrel : ¬ (|newQty - it.quantity| > p.reserved_stock) := by
    rw [habs]; omega
  simp [updateItem, hit, hp, Product.release_stock, hd0, hdneg, hrel]

/-- Witness for C9: in `dbDecrease` (reserved 5 = 3 + 2 across two cart
items), shrinking the quantity-3 item to 1 succeeds. -/
theorem C9_update_decrease_release_succeeds_witness :
    (dbDecrease.findCartItemById 3 =
        some { id := 3, cartId := 2, productId := 1, quantity := 3 }
      ∧ (0 : Int) < 1 ∧ (1 : Int) < 3)
    ∧ ∃ db', updateItem dbDecrease 3 (some 1) = .ok db' :=
  ⟨⟨rfl, by decide, by decide⟩,
   C9_update_decrease_release_succeeds dbDecrease 3 1
     { id := 3, cartId := 2, productId := 1, quantity := 3 }
     { id := 1, name := "E", price := 700, stock_quantity := 10,
       reserved_stock := 5 }
     rfl rfl (by decide) (by decide) (by decide) (by decide)⟩

/-- Claim C2 as amended: when a cart item for (cart, product) already
exists with quantity `oldQty`, `addItem` validates the stock against both
the incremental `qty` and the merged total `oldQty + qty` (for
`oldQty ≥ 0` the merged check is the binding one); it succeeds exactly
when both hold, reserving exactly `qty` further units and raising the
existing row to `oldQty + qty` with no duplicate row; otherwise it fails
with `InsufficientStock` carrying the available stock. -/
theorem C2_addItem_existing_spec (db : DB) (u pid : Nat) (qty : Int)
    (p : Product) (c : Cart) (it : CartItem)
    (hp : db.findProduct pid = some p)
    (hc : db.findCart u = some c)
    (hit : db.findCartItem c.id pid = some it) :
    (it.quantity + qty ≤ p.available_stock → qty ≤ p.available_stock →
      addItem db u pid qty = .ok { db with
        products := db.products.map (fun q0 =>
          if q0.id == p.id then
            { p with reserved_stock := p.reserved_stock + qty }
          else q0),
        cartItems := db.cartItems.map (fun ci =>
          if ci.id == it.id then { ci with quantity := it.quantity + qty }
          else ci) })
    ∧ (¬ (it.quantity + qty ≤ p.available_stock ∧ qty ≤ p.available_stock) →
      addItem db u pid qty =
        .error (.insufficientStock p.available_stock)) := by
  constructor
  · intro hA hB
    have h1 : ¬ (qty > p.available_stock) := by omega
    simp [addItem, hp, hc, hit, Product.is_in_stock, Product.reserve_stock,
      DB.saveProduct, hA, hB, h1]
  · intro hnot
    by_cases hB : qty ≤ p.available_stock
    · have hA : ¬ (it.quantity + qty ≤ p.available_stock) := by tauto
      simp [addItem, hp, hc, hit, Product.is_in_stock, hB, hA]
    · simp [addItem, hp, hc, hit, Product.is_in_stock, hB]

/-- Witness for C2: in `dbMerge` (10 in stock, 3 reserved, existing item
of quantity 3) adding 4 more passes both checks (3 + 4 = 7 ≤ 7) and
merges to quantity 7 with 7 reserved. -/
theorem C2_addItem_existing_spec_witness :
    (dbMerge.findProduct 1 = some pMerge
      ∧ dbMerge.findCart 4 = some { id := 2, userId := 4 }
      ∧ dbMerge.findCartItem 2 1 = some itMerge
      ∧ itMerge.quantity + 4 ≤ pMerge.available_stock
      ∧ (4 : Int) ≤ pMerge.available_stock)
    ∧ addItem dbMerge 4 1 4 = .ok { dbMerge with
        products := dbMerge.products.map (fun q0 =>
          if q0.id == pMerge.id then
            { pMerge with reserved_stock := pMerge.reserved_stock + 4 }
          else q0),
        cartItems := dbMerge.cartItems.map (fun ci =>
          if ci.id == itMerge.id then
            { ci with quantity := itMerge.quantity + 4 }
          else ci) } :=
  ⟨⟨rfl, rfl, rfl, by decide, by decide⟩,
   (C2_addItem_existing_spec dbMerge 4 1 4 pMerge { id := 2, userId := 4 }
     itMerge rfl rfl rfl).1 (by decide) (by decide)⟩

/-- Claim C8 as amended: when the user has no cart row, `cart_summary`
answers the all-zero summary with `can_checkout = false`; when the cart
row exists, `can_checkout` is the conjunction of `in_stock` over the
items — which is vacuously `true` (not `false`) for a cart that holds no
items — and `items_count` and `total_price` are the count and the sum of
the item totals. -/
theorem C8_cart_summary_spec (db : DB) (u : Nat) :
    (db.findCart u = none →
      cart_summary db u =
        some { items := [], total_price := 0, items_count := 0,
               can_checkout := false })
    ∧ (∀ c, db.findCart u = some c → ∀ s, cart_summary db u = some s →
        s.can_checkout = s.items.all (fun it => it.in_stock)
        ∧ s.items_count = s.items.length
        ∧ s.total_price = (s.items.map (fun it => it.item_total)).sum) := by
  constructor
  · intro h
    simp [cart_summary, h]
  · intro c hc s hs
    simp only [cart_summary, hc] at hs
    cases hsi : summaryItems db
        (db.cartItems.filter (fun ci => ci.cartId == c.id)) with
    | none => rw [hsi] at hs; cases hs
    | some items_data =>
      rw [hsi] at hs
      simp only [Option.some.injEq] at hs
      subst hs
      exact ⟨rfl, rfl, rfl⟩

/-- Witness for C8 at a user with no cart row: the all-zero summary with
`can_checkout = false`. -/
theorem C8_cart_summary_spec_witness :
    dbEmptyCart.findCart 99 = none
    ∧ cart_summary dbEmptyCart 99 =
        some { items := [], total_price := 0, items_count := 0,
               can_checkout := false } :=
  ⟨rfl, (C8_cart_summary_spec dbEmptyCart 99).1 rfl⟩

end AppifyEcommerce
